import Mathlib

/-!
Verification of the kettle-cycle-test module: a shallow embedding of the
force-capture sampler (force_sensor.go) and the trial/cycle controller
(module.go), with theorems settling the specified properties.

Conventions of the embedding:
- Go float64 sample values are modelled as rationals (`Rat`); the code only
  compares and maximises samples, never does float arithmetic, so the linear
  order is the whole story.
- Mutex-guarded mutable state becomes explicit state passing: every command
  handler maps a state to a new state together with its reply
  (`Except String result`, mirroring Go's `(map, error)` returns).
- The sampling goroutine becomes a step function applied once per tick, fed
  the value the reader returned on that tick (`none` for a read failure).
- Wall-clock times are `Timestamp` values; Go's `time.Format("20060102-150405")`
  is modelled by decimal rendering of the whole-second component, which, like
  the Go format, discards the sub-second part and is injective in the seconds.
-/

deriving instance DecidableEq for Except

namespace KettleCycleTest

/-- Capture state machine of the force sensor (Go type captureState). -/
inductive CaptureState
  | idle
  | waiting
  | active
deriving DecidableEq, Repr

/-- Numeric code of a capture state, as the Go iota constants print with %d. -/
def CaptureState.code : CaptureState → Nat
  | CaptureState.idle => 0
  | CaptureState.waiting => 1
  | CaptureState.active => 2

/-- Decimal digit character, for rendering numbers the way Go prints them. -/
def digitChar : Nat → Char
  | 0 => '0'
  | 1 => '1'
  | 2 => '2'
  | 3 => '3'
  | 4 => '4'
  | 5 => '5'
  | 6 => '6'
  | 7 => '7'
  | 8 => '8'
  | 9 => '9'
  | _ => '?'

/-- Little-endian base-10 digits of n, with explicit fuel (fuel ≥ n suffices). -/
def natDigitsAux : Nat → Nat → List Nat
  | 0, _ => []
  | fuel + 1, n => if n = 0 then [] else n % 10 :: natDigitsAux fuel (n / 10)

/-- Decimal rendering of a natural number. -/
def natToString (n : Nat) : String :=
  if n = 0 then "0" else String.mk (((natDigitsAux n n).map digitChar).reverse)

/-- Value of a little-endian base-10 digit list; left inverse of natDigitsAux. -/
def ofDigitsL : List Nat → Nat
  | [] => 0
  | d :: ds => d + 10 * ofDigitsL ds

/-- Sampler state: the mutex-guarded fields of Go struct forceSensor.
The timeoutTimer pointer is modelled by whether a timer is armed. -/
structure ForceSensorState where
  sampleRateHz : Nat
  bufferSize : Nat
  zeroThreshold : Rat
  captureTimeout : Nat
  samples : List Rat
  state : CaptureState
  timerArmed : Bool
  trialID : String
  cycleCount : Int
deriving DecidableEq, Repr

/-- Result map of a successful end_capture command (Go handleEndCapture). -/
structure EndCaptureResult where
  status : String
  sample_count : Nat
  max_force : Rat
  trial_id : String
  cycle_count : Int
deriving DecidableEq, Repr

/-- Maximum of a sample list computed exactly as the Go loops do: seed with the
first element, scan the rest with a strict-greater test; 0 for an empty list
(the zero value of the Go var). -/
def maxForceOf : List Rat → Rat
  | [] => 0
  | h :: t => t.foldl (fun m v => if v > m then v else m) h

/-- Go handleStartCapture: fails unless idle; otherwise resets trial metadata
from the command parameters (absent keys leave the zero values), clears the
buffer, enters waiting and arms the timeout timer. The reply map only carries
status "waiting". -/
def handleStartCapture (fs : ForceSensorState) (tid? : Option String) (cc? : Option Int) :
    ForceSensorState × Except String String :=
  if fs.state ≠ CaptureState.idle then
    (fs, Except.error ("capture already in progress (state: " ++ natToString fs.state.code ++ ")"))
  else
    ({ fs with
        trialID := tid?.getD ""
        cycleCount := cc?.getD 0
        state := CaptureState.waiting
        samples := []
        timerArmed := true },
     Except.ok "waiting")

/-- Go handleEndCapture: fails when idle; otherwise stops the timer, reports
sample count and the maximum force with the trial metadata as it stood, then
returns to idle clearing the trial metadata. The buffer is not cleared here. -/
def handleEndCapture (fs : ForceSensorState) : ForceSensorState × Except String EndCaptureResult :=
  if fs.state = CaptureState.idle then
    (fs, Except.error "no capture in progress")
  else
    ({ fs with
        state := CaptureState.idle
        timerArmed := false
        trialID := ""
        cycleCount := 0 },
     Except.ok
       { status := "completed"
         sample_count := fs.samples.length
         max_force := maxForceOf fs.samples
         trial_id := fs.trialID
         cycle_count := fs.cycleCount })

/-- Body of the time.AfterFunc timeout callback: if a capture is still in
progress it logs and returns the state to idle. Nothing else is touched. -/
def timeoutFire (fs : ForceSensorState) : ForceSensorState :=
  if fs.state ≠ CaptureState.idle then { fs with state := CaptureState.idle } else fs

/-- One tick of Go samplingLoop, given the reader's outcome for this tick
(none models a read error, which is logged and skipped). Idle ticks skip the
read entirely. A waiting sampler crossing the zero threshold becomes active
with a reset buffer and the same tick then appends; an active sampler appends,
evicting the oldest sample first when the buffer is full. -/
def samplingTick (fs : ForceSensorState) (reading : Option Rat) : ForceSensorState :=
  if fs.state = CaptureState.idle then fs
  else
    match reading with
    | none => fs
    | some force =>
      let fs1 :=
        if fs.state = CaptureState.waiting ∧ force ≥ fs.zeroThreshold then
          { fs with state := CaptureState.active, samples := [] }
        else fs
      if fs1.state = CaptureState.active then
        { fs1 with
            samples :=
              (if fs1.samples.length ≥ fs1.bufferSize then fs1.samples.tail else fs1.samples)
                ++ [force] }
      else fs1

/-- Successful reads delivered to consecutive sampling ticks. -/
def feedSamples (fs : ForceSensorState) (xs : List Rat) : ForceSensorState :=
  xs.foldl (fun s v => samplingTick s (some v)) fs

/-- Snapshot map returned by the sensor Readings query; max_force is an
optional field because the Go code only inserts the key when the buffer copy
is non-empty. -/
structure SensorReadings where
  trial_id : String
  cycle_count : Int
  should_sync : Bool
  samples : List Rat
  sample_count : Nat
  capture_state : String
  max_force : Option Rat
deriving DecidableEq, Repr

/-- State label strings used by the Readings query. -/
def stateLabel : CaptureState → String
  | CaptureState.idle => "idle"
  | CaptureState.waiting => "waiting"
  | CaptureState.active => "capturing"

/-- Go Readings: copies the buffer under the lock and derives the snapshot;
should_sync is exactly "a non-empty trial id is recorded". -/
def readings (fs : ForceSensorState) : SensorReadings :=
  { trial_id := fs.trialID
    cycle_count := fs.cycleCount
    should_sync := fs.trialID != ""
    samples := fs.samples
    sample_count := fs.samples.length
    capture_state := stateLabel fs.state
    max_force := if fs.samples.length > 0 then some (maxForceOf fs.samples) else none }

/-- Configuration of the force sensor (Go ForceSensorConfig, json field names). -/
structure ForceSensorConfig where
  loadCell : String
  useMockCurve : Bool
  forceKey : String
  sampleRateHz : Int
  bufferSize : Int
  zeroThreshold : Rat
  captureTimeout : Int
deriving DecidableEq, Repr

/-- Go ForceSensorConfig.Validate: load_cell is unconditionally required; on
success the load cell is declared as the single dependency. -/
def ForceSensorConfig.validate (cfg : ForceSensorConfig) (path : String) :
    Except String (List String) :=
  if cfg.loadCell = "" then Except.error (path ++ ": load_cell is required")
  else Except.ok [cfg.loadCell]

/-- Reader chosen by the constructor: the mock curve when use_mock_curve is
set, otherwise the hardware load-cell sensor (with "value" as default key). -/
inductive ReaderChoice
  | mock
  | hardware (loadCell : String) (forceKey : String)
deriving DecidableEq, Repr

/-- Reader selection in Go newForceSensor. -/
def chooseReader (cfg : ForceSensorConfig) : ReaderChoice :=
  if cfg.useMockCurve then ReaderChoice.mock
  else ReaderChoice.hardware cfg.loadCell (if cfg.forceKey = "" then "value" else cfg.forceKey)

/-- Defaulted buffer size applied by Go newForceSensor (100 when ≤ 0). -/
def effBufferSize (cfg : ForceSensorConfig) : Nat :=
  if cfg.bufferSize ≤ 0 then 100 else cfg.bufferSize.toNat

/-- Initial sampler state built by Go newForceSensor after defaulting. -/
def newForceSensorState (cfg : ForceSensorConfig) : ForceSensorState :=
  { sampleRateHz := if cfg.sampleRateHz ≤ 0 then 50 else cfg.sampleRateHz.toNat
    bufferSize := effBufferSize cfg
    zeroThreshold := if cfg.zeroThreshold ≤ 0 then 5 else cfg.zeroThreshold
    captureTimeout := if cfg.captureTimeout ≤ 0 then 10000 else cfg.captureTimeout.toNat
    samples := []
    state := CaptureState.idle
    timerArmed := false
    trialID := ""
    cycleCount := 0 }

/-- Wall-clock instant, split the way Go time.Time is consumed here: a whole
second and a sub-second nanosecond part. -/
structure Timestamp where
  sec : Nat
  nsec : Nat
deriving DecidableEq, Repr

/-- Model of Go now.Format("20060102-150405"): renders the wall-clock second,
discarding the sub-second part; distinct seconds render distinctly. -/
def formatSeconds (t : Timestamp) : String := natToString t.sec

/-- Trial record owned by the controller (Go struct trialState). The stop
channel itself is concurrency plumbing and is represented in the loop model
by the per-iteration stop observations. -/
structure TrialState where
  trialID : String
  cycleCount : Int
  startedAt : Timestamp
  lastCycleAt : Option Timestamp
deriving DecidableEq, Repr

/-- Mutex-guarded controller state: a single optional active trial. -/
structure ControllerState where
  activeTrial : Option TrialState
deriving DecidableEq, Repr

/-- Controller state at construction: no active trial. -/
def initialController : ControllerState := { activeTrial := none }

/-- Go handleStart: fails when a trial is already running; otherwise builds a
time-derived trial id "trial-<formatted now>", installs a fresh trial with
cycle count 0, spawns the cycle loop, and replies with the trial id. -/
def handleStart (s : ControllerState) (now : Timestamp) :
    ControllerState × Except String String :=
  match s.activeTrial with
  | some t => (s, Except.error ("trial already running: " ++ t.trialID))
  | none =>
    let trialID := "trial-" ++ formatSeconds now
    ({ activeTrial :=
        some { trialID := trialID, cycleCount := 0, startedAt := now, lastCycleAt := none } },
     Except.ok trialID)

/-- Reply map of a successful stop command. -/
structure StopResult where
  trial_id : String
  cycle_count : Int
deriving DecidableEq, Repr

/-- Go handleStop: fails when no trial is active; otherwise signals the loop,
clears the trial record and reports its id and final cycle count. -/
def handleStop (s : ControllerState) : ControllerState × Except String StopResult :=
  match s.activeTrial with
  | none => (s, Except.error "no active trial to stop")
  | some t =>
    ({ activeTrial := none }, Except.ok { trial_id := t.trialID, cycle_count := t.cycleCount })

/-- External effect of one step of handleExecuteCycle, in program order. -/
inductive CycleAction
  | triggerPourPrep
  | startCaptureCmd (meta : Option (String × Int))
  | triggerResting
  | waitArmStopped
  | endCaptureCmd
deriving DecidableEq, Repr

/-- Outcomes of the external collaborators during one cycle: errors of the two
pose triggers, cancellation observations at the two settle waits, the logged
results of capture start, arm-stop wait and capture end, and the wall clock
read when the cycle completes. -/
structure CycleEnv where
  pourErr : Option String
  cancelAfterPour : Bool
  startCaptureErr : Option String
  restingErr : Option String
  armWaitErr : Option String
  endCaptureResult : Except String EndCaptureResult
  cancelBeforeReturn : Bool
  now : Timestamp
deriving Repr

/-- Reply map of a successful execute_cycle command; force_capture is present
exactly when a sampler is configured and its end_capture succeeded. -/
structure ExecResult where
  status : String
  force_capture : Option EndCaptureResult
deriving DecidableEq, Repr

/-- Go handleExecuteCycle, as a function of the controller state, whether a
force sensor is configured, and the collaborators' outcomes. Returns the new
controller state, the trace of external actions performed, and the reply.
Failure of the pour trigger aborts before anything else happens; failure of
the resting trigger attempts a best-effort end_capture and then aborts;
capture errors and the arm-stop wait are logged, never fatal; the cycle count
and last-cycle time are updated only on the path that passed the resting
trigger, before the closing settle wait. -/
def handleExecuteCycle (s : ControllerState) (hasSensor : Bool) (env : CycleEnv) :
    ControllerState × List CycleAction × Except String ExecResult :=
  match env.pourErr with
  | some e =>
    (s, [CycleAction.triggerPourPrep], Except.error ("moving to pour_prep position: " ++ e))
  | none =>
    if env.cancelAfterPour then
      (s, [CycleAction.triggerPourPrep], Except.error "context canceled")
    else
      let captureMeta : Option (String × Int) :=
        s.activeTrial.map (fun t => (t.trialID, t.cycleCount))
      let actsCapture : List CycleAction :=
        if hasSensor then [CycleAction.startCaptureCmd captureMeta] else []
      match env.restingErr with
      | some e =>
        (s,
         CycleAction.triggerPourPrep :: actsCapture
           ++ [CycleAction.triggerResting]
           ++ (if hasSensor then [CycleAction.endCaptureCmd] else []),
         Except.error ("returning to resting position: " ++ e))
      | none =>
        let captureResult : Option EndCaptureResult :=
          if hasSensor then env.endCaptureResult.toOption else none
        let acts :=
          CycleAction.triggerPourPrep :: actsCapture
            ++ [CycleAction.triggerResting, CycleAction.waitArmStopped]
            ++ (if hasSensor then [CycleAction.endCaptureCmd] else [])
        let s1 : ControllerState :=
          match s.activeTrial with
          | some t =>
            { activeTrial :=
                some { t with cycleCount := t.cycleCount + 1, lastCycleAt := some env.now } }
          | none => s
        if env.cancelBeforeReturn then (s1, acts, Except.error "context canceled")
        else (s1, acts, Except.ok { status := "completed", force_capture := captureResult })

/-- Observations made by one iteration of Go cycleLoop before its select
falls through to executing a cycle: whether the stop channel is closed,
whether the process-level context is cancelled, and the cycle's environment. -/
structure LoopTick where
  stopSignaled : Bool
  cancelled : Bool
  env : CycleEnv
deriving Repr

/-- Go cycleLoop over a finite schedule of observations: returns the final
controller state and how many cycles were executed. The loop exits only on a
stop signal or cancellation; a cycle's error result is discarded. -/
def cycleLoop (hasSensor : Bool) : ControllerState → List LoopTick → ControllerState × Nat
  | s, [] => (s, 0)
  | s, t :: rest =>
    if t.stopSignaled || t.cancelled then (s, 0)
    else
      let s1 := (handleExecuteCycle s hasSensor t.env).1
      let r := cycleLoop hasSensor s1 rest
      (r.1, r.2 + 1)

/-- Start and stop commands as dispatched to the controller, with the wall
clock at which a start is processed. -/
inductive CtrlCmd
  | start (now : Timestamp)
  | stop

/-- State evolution of one dispatched command (replies discarded). -/
def ctrlStep (s : ControllerState) : CtrlCmd → ControllerState
  | CtrlCmd.start now => (handleStart s now).1
  | CtrlCmd.stop => (handleStop s).1

/-- Controller state after dispatching a command sequence from construction. -/
def runCtrl (cmds : List CtrlCmd) : ControllerState :=
  cmds.foldl ctrlStep initialController

/-- Number of trials the controller currently holds. -/
def activeTrialCount (s : ControllerState) : Nat :=
  match s.activeTrial with
  | none => 0
  | some _ => 1

/-- Suffix of the last n elements of a list (all of it when it is shorter). -/
def takeLast (n : Nat) (l : List α) : List α := l.drop (l.length - n)

/-- Fixture: sampler as built from an all-default configuration. -/
def fs0 : ForceSensorState :=
  { sampleRateHz := 50
    bufferSize := 100
    zeroThreshold := 5
    captureTimeout := 10000
    samples := []
    state := CaptureState.idle
    timerArmed := false
    trialID := ""
    cycleCount := 0 }

/-- Fixture: sampler right after start_capture with trial-123 / cycle 5. -/
def fsWaiting : ForceSensorState := (handleStartCapture fs0 (some "trial-123") (some 5)).1

/-- Fixture: sampler in active capture with a two-sample rolling buffer. -/
def fsActive2 : ForceSensorState :=
  { fs0 with state := CaptureState.active, bufferSize := 2 }

/-- Fixture: force-sensor configuration selecting the simulated source but
carrying no load-cell reference. -/
def cfgMockNoCell : ForceSensorConfig :=
  { loadCell := ""
    useMockCurve := true
    forceKey := ""
    sampleRateHz := 0
    bufferSize := 0
    zeroThreshold := 0
    captureTimeout := 0 }

/-- Fixture: force-sensor configuration naming a load cell. -/
def cfgWithCell : ForceSensorConfig :=
  { cfgMockNoCell with loadCell := "my-adc-sensor", useMockCurve := false }

/-- Fixture: an instant at second 100 of the epoch. -/
def t100a : Timestamp := { sec := 100, nsec := 0 }

/-- Fixture: a later instant inside the same wall-clock second as t100a. -/
def t100b : Timestamp := { sec := 100, nsec := 999999 }

/-- Fixture: controller with a running trial. -/
def ctrlRunning : ControllerState := (handleStart initialController t100a).1

/-- Fixture: cycle environment whose pour trigger fails. -/
def envPourFail : CycleEnv :=
  { pourErr := some "boom"
    cancelAfterPour := false
    startCaptureErr := none
    restingErr := none
    armWaitErr := none
    endCaptureResult := Except.error "no capture in progress"
    cancelBeforeReturn := false
    now := t100b }

/-- C8: start_capture replies with the "capture already in progress" error
exactly when the sampler is not idle and succeeds (status "waiting") exactly
when it is idle; end_capture replies with the "no capture in progress" error
exactly when the sampler is idle and succeeds in every other state. -/
theorem capture_protocol_errors (fs : ForceSensorState) (tid? : Option String) (cc? : Option Int) :
    ((handleStartCapture fs tid? cc?).2 =
        Except.error ("capture already in progress (state: " ++ natToString fs.state.code ++ ")")
      ↔ fs.state ≠ CaptureState.idle)
    ∧ ((handleStartCapture fs tid? cc?).2 = Except.ok "waiting" ↔ fs.state = CaptureState.idle)
    ∧ ((handleEndCapture fs).2 = Except.error "no capture in progress"
      ↔ fs.state = CaptureState.idle)
    ∧ ((handleEndCapture fs).2.isOk = true ↔ fs.state ≠ CaptureState.idle) := by
  cases h : fs.state <;>
    simp [handleStartCapture, handleEndCapture, h, Except.isOk, Except.toBool]

/-- C8 witness: concretely, from the idle fixture start_capture succeeds, and
on the waiting fixture a second start_capture fails while end_capture is
accepted. -/
theorem capture_protocol_errors_witness :
    (handleStartCapture fs0 (some "trial-123") (some 5)).2 = Except.ok "waiting"
    ∧ (handleStartCapture fsWaiting none none).2 =
        Except.error "capture already in progress (state: 1)"
    ∧ (handleEndCapture fsWaiting).2.isOk = true
    ∧ (handleEndCapture fs0).2 = Except.error "no capture in progress" :=
  ⟨(capture_protocol_errors fs0 (some "trial-123") (some 5)).2.1.mpr (by decide),
   by
    have h := (capture_protocol_errors fsWaiting none none).1.mpr (by decide)
    simpa using h,
   (capture_protocol_errors fsWaiting none none).2.2.2.mpr (by decide),
   (capture_protocol_errors fs0 none none).2.2.1.mpr (by decide)⟩

/-- C9: every protocol error leaves the observable component state exactly as
it was: a start refused because a trial is running, a stop refused because
none is, a start_capture refused because the sampler is not idle and an
end_capture refused because it is idle all return the input state unchanged
(controller trial record; sampler capture state, buffer and trial metadata). -/
theorem protocol_error_preserves_state (s : ControllerState) (now : Timestamp)
    (fs : ForceSensorState) (tid? : Option String) (cc? : Option Int) :
    (∀ e, (handleStart s now).2 = Except.error e → (handleStart s now).1 = s)
    ∧ (∀ e, (handleStop s).2 = Except.error e → (handleStop s).1 = s)
    ∧ (∀ e, (handleStartCapture fs tid? cc?).2 = Except.error e →
        (handleStartCapture fs tid? cc?).1 = fs)
    ∧ (∀ e, (handleEndCapture fs).2 = Except.error e → (handleEndCapture fs).1 = fs) := by
  refine ⟨?_, ?_, ?_, ?_⟩
  · intro e; cases h : s.activeTrial <;> simp [handleStart, h]
  · intro e; cases h : s.activeTrial <;> simp [handleStop, h]
  · intro e; cases h : fs.state <;> simp [handleStartCapture, h]
  · intro e; cases h : fs.state <;> simp [handleEndCapture, h]

/-- C9 witness: the four refusals on concrete states, each leaving the state
it found: start on a running controller, stop on an idle controller,
start_capture on a waiting sampler, end_capture on an idle sampler. -/
theorem protocol_error_preserves_state_witness :
    (handleStart ctrlRunning t100b).1 = ctrlRunning
    ∧ (handleStop initialController).1 = initialController
    ∧ (handleStartCapture fsWaiting none none).1 = fsWaiting
    ∧ (handleEndCapture fs0).1 = fs0 :=
  ⟨(protocol_error_preserves_state ctrlRunning t100b fs0 none none).1
      "trial already running: trial-100" (by decide),
   (protocol_error_preserves_state initialController t100b fs0 none none).2.1
      "no active trial to stop" (by decide),
   (protocol_error_preserves_state initialController t100b fsWaiting none none).2.2.1
      "capture already in progress (state: 1)" (by decide),
   (protocol_error_preserves_state initialController t100b fs0 none none).2.2.2
      "no capture in progress" (by decide)⟩

/-- C2: over every sequence of start/stop commands the controller holds at
most one trial; a start while a trial is running always fails, and a stop
while idle always fails. -/
theorem single_active_trial (cmds : List CtrlCmd) (s : ControllerState) (now : Timestamp) :
    activeTrialCount (runCtrl cmds) ≤ 1
    ∧ (s.activeTrial.isSome = true → ∃ e, (handleStart s now).2 = Except.error e)
    ∧ (s.activeTrial = none → ∃ e, (handleStop s).2 = Except.error e) := by
  refine ⟨?_, ?_, ?_⟩
  · cases h : (runCtrl cmds).activeTrial <;> simp [activeTrialCount, h]
  · intro hsome
    cases h : s.activeTrial with
    | none => rw [h] at hsome; simp at hsome
    | some t => exact ⟨"trial already running: " ++ t.trialID, by simp [handleStart, h]⟩
  · intro hnone
    exact ⟨"no active trial to stop", by simp [handleStop, hnone]⟩

/-- C2 witness: after a start the running fixture refuses a second start, and
the freshly constructed controller refuses a stop; a concrete start/stop
sequence ends with at most one trial held. -/
theorem single_active_trial_witness :
    activeTrialCount (runCtrl [CtrlCmd.start t100a, CtrlCmd.stop, CtrlCmd.start t100b]) ≤ 1
    ∧ (∃ e, (handleStart ctrlRunning t100b).2 = Except.error e)
    ∧ (∃ e, (handleStop initialController).2 = Except.error e) :=
  ⟨(single_active_trial [CtrlCmd.start t100a, CtrlCmd.stop, CtrlCmd.start t100b]
      ctrlRunning t100b).1,
   (single_active_trial [] ctrlRunning t100b).2.1 (by decide),
   (single_active_trial [] initialController t100b).2.2 (by decide)⟩

/-- C4 counterexample: a configuration selecting the simulated source
(use_mock_curve) but omitting the load-cell reference does not pass
validation — Validate refuses it with the load_cell error, so the claim that
validation succeeds without the reference when the simulated source is
selected is false. -/
theorem mock_config_still_requires_load_cell :
    cfgMockNoCell.useMockCurve = true
    ∧ ForceSensorConfig.validate cfgMockNoCell "cfg" =
        Except.error "cfg: load_cell is required" := by
  exact ⟨rfl, by decide⟩

/-- C4 (amended): construction-time validation requires the load-cell
reference unconditionally — it fails with a named validation error
identifying the load_cell field whenever the reference is absent, even when
the simulated source is selected, and succeeds (declaring the load cell as a
dependency) whenever the reference is present; the simulated-source flag only
selects the mock reader instead of the hardware lookup at construction. -/
theorem validate_requires_load_cell (cfg : ForceSensorConfig) (path : String) :
    (cfg.loadCell = "" →
      ForceSensorConfig.validate cfg path = Except.error (path ++ ": load_cell is required"))
    ∧ (cfg.loadCell ≠ "" →
      ForceSensorConfig.validate cfg path = Except.ok [cfg.loadCell])
    ∧ (cfg.useMockCurve = true → chooseReader cfg = ReaderChoice.mock) := by
  refine ⟨?_, ?_, ?_⟩
  · intro h; simp [ForceSensorConfig.validate, h]
  · intro h; simp [ForceSensorConfig.validate, h]
  · intro h; simp [chooseReader, h]

/-- C4 amended witness: the empty-reference mock configuration is refused
with the named error and gets the mock reader; the configuration naming a
load cell passes and declares it. -/
theorem validate_requires_load_cell_witness :
    ForceSensorConfig.validate cfgMockNoCell "cfg" = Except.error "cfg: load_cell is required"
    ∧ ForceSensorConfig.validate cfgWithCell "cfg" = Except.ok ["my-adc-sensor"]
    ∧ chooseReader cfgMockNoCell = ReaderChoice.mock :=
  ⟨(validate_requires_load_cell cfgMockNoCell "cfg").1 (by decide),
   (validate_requires_load_cell cfgWithCell "cfg").2.1 (by decide),
   (validate_requires_load_cell cfgMockNoCell "cfg").2.2 (by decide)⟩

/-- C10: with an empty sample buffer the snapshot omits the max_force field
entirely, while end_capture (legal in any non-idle state, e.g. still waiting
for the first threshold crossing) succeeds and reports sample_count 0 and
max_force 0. -/
theorem empty_buffer_reports (fs : ForceSensorState) (hempty : fs.samples = []) :
    (readings fs).max_force = none
    ∧ (fs.state ≠ CaptureState.idle →
        (handleEndCapture fs).2 = Except.ok
          { status := "completed", sample_count := 0, max_force := 0,
            trial_id := fs.trialID, cycle_count := fs.cycleCount }) := by
  constructor
  · simp [readings, hempty]
  · intro h
    simp [handleEndCapture, h, hempty, maxForceOf]

/-- C10 witness: ending the capture of the waiting fixture (empty buffer)
succeeds with sample_count 0 and max_force 0, and its snapshot has no
max_force field. -/
theorem empty_buffer_reports_witness :
    (readings fsWaiting).max_force = none
    ∧ (handleEndCapture fsWaiting).2 = Except.ok
        { status := "completed", sample_count := 0, max_force := 0,
          trial_id := "trial-123", cycle_count := 5 } :=
  ⟨(empty_buffer_reports fsWaiting (by decide)).1,
   (empty_buffer_reports fsWaiting (by decide)).2 (by decide)⟩

/-- C6: when triggering the pour/lift pose fails, execute_cycle surfaces the
wrapped underlying error, performs no further external action (no resting
trigger, no start_capture or end_capture command) and leaves the controller
state — cycle count and last-cycle timestamp included — untouched. -/
theorem pour_failure_aborts_cycle (s : ControllerState) (hasSensor : Bool)
    (env : CycleEnv) (e : String) (h : env.pourErr = some e) :
    (handleExecuteCycle s hasSensor env).2.2 =
        Except.error ("moving to pour_prep position: " ++ e)
    ∧ (handleExecuteCycle s hasSensor env).1 = s
    ∧ (handleExecuteCycle s hasSensor env).2.1 = [CycleAction.triggerPourPrep]
    ∧ CycleAction.triggerResting ∉ (handleExecuteCycle s hasSensor env).2.1
    ∧ (∀ m, CycleAction.startCaptureCmd m ∉ (handleExecuteCycle s hasSensor env).2.1)
    ∧ CycleAction.endCaptureCmd ∉ (handleExecuteCycle s hasSensor env).2.1 := by
  simp [handleExecuteCycle, h]

/-- C6 witness: a failing pour on the running fixture with a sensor
configured yields the wrapped error, the bare pour trace and an unchanged
state. -/
theorem pour_failure_aborts_cycle_witness :
    (handleExecuteCycle ctrlRunning true envPourFail).2.2 =
        Except.error "moving to pour_prep position: boom"
    ∧ (handleExecuteCycle ctrlRunning true envPourFail).1 = ctrlRunning
    ∧ (handleExecuteCycle ctrlRunning true envPourFail).2.1 = [CycleAction.triggerPourPrep] :=
  ⟨by
    have h := (pour_failure_aborts_cycle ctrlRunning true envPourFail "boom" rfl).1
    simpa using h,
   (pour_failure_aborts_cycle ctrlRunning true envPourFail "boom" rfl).2.1,
   (pour_failure_aborts_cycle ctrlRunning true envPourFail "boom" rfl).2.2.1⟩

/-- C1 counterexample: expiry of the capture timeout is a transition of the
capture state back to idle that does NOT reset the recorded trial metadata —
from the waiting fixture carrying trial-123 / cycle 5, the timeout callback
returns the state to idle yet the trial id and cycle count survive, and the
snapshot taken immediately afterwards still reports should_sync = true. -/
theorem timeout_keeps_trial_metadata :
    fsWaiting.state = CaptureState.waiting
    ∧ (timeoutFire fsWaiting).state = CaptureState.idle
    ∧ (timeoutFire fsWaiting).trialID = "trial-123"
    ∧ (timeoutFire fsWaiting).cycleCount = 5
    ∧ (readings (timeoutFire fsWaiting)).should_sync = true := by
  decide

/-- C1 (amended): trial metadata is reset exactly on the end_capture
transition back to idle — after any successful end_capture the trial id is
empty, the cycle count zero and an immediate snapshot reports should_sync =
false — whereas the timeout expiry transition only returns the capture state
to idle, leaving the recorded trial id and cycle count in place (until the
next start_capture overwrites them). -/
theorem idle_transitions_and_metadata (fs : ForceSensorState)
    (h : fs.state ≠ CaptureState.idle) :
    ((handleEndCapture fs).1.state = CaptureState.idle
      ∧ (handleEndCapture fs).1.trialID = ""
      ∧ (handleEndCapture fs).1.cycleCount = 0
      ∧ (readings (handleEndCapture fs).1).should_sync = false)
    ∧ ((timeoutFire fs).state = CaptureState.idle
      ∧ (timeoutFire fs).trialID = fs.trialID
      ∧ (timeoutFire fs).cycleCount = fs.cycleCount) := by
  refine ⟨?_, ?_⟩
  · simp [handleEndCapture, h, readings]
  · simp [timeoutFire, h]

/-- C1 amended witness: ending the capture of the waiting fixture clears the
metadata and flips should_sync off, while firing the timeout on it keeps
trial-123 / cycle 5 recorded. -/
theorem idle_transitions_and_metadata_witness :
    ((handleEndCapture fsWaiting).1.trialID = ""
      ∧ (readings (handleEndCapture fsWaiting).1).should_sync = false)
    ∧ ((timeoutFire fsWaiting).trialID = "trial-123"
      ∧ (timeoutFire fsWaiting).cycleCount = 5) :=
  ⟨⟨(idle_transitions_and_metadata fsWaiting (by decide)).1.2.1,
    (idle_transitions_and_metadata fsWaiting (by decide)).1.2.2.2⟩,
   ⟨(idle_transitions_and_metadata fsWaiting (by decide)).2.2.1,
    (idle_transitions_and_metadata fsWaiting (by decide)).2.2.2⟩⟩

/-- One executed cycle never creates, destroys or renames the trial record:
whatever the collaborators did (including every error path), the controller
afterwards holds a trial exactly when it did before, with the same id. -/
theorem execCycle_preserves_trial (s : ControllerState) (hasSensor : Bool) (env : CycleEnv) :
    (handleExecuteCycle s hasSensor env).1.activeTrial.map TrialState.trialID =
      s.activeTrial.map TrialState.trialID := by
  cases hp : env.pourErr <;> cases hc : env.cancelAfterPour <;>
    cases hr : env.restingErr <;> cases hb : env.cancelBeforeReturn <;>
      cases hs : s.activeTrial <;>
        simp [handleExecuteCycle, hp, hc, hr, hb, hs]

/-- C7: no error class auto-stops a trial. Over any schedule in which the
stop channel is never closed and the process context never cancelled, the
cycle loop executes every scheduled iteration — whatever errors the cycles
return, each iteration merely proceeds to the next — and the trial record it
started with is still held, under the same trial id, at the end. -/
theorem errors_never_stop_trial (hasSensor : Bool) (s : ControllerState)
    (ticks : List LoopTick)
    (hrun : ∀ t ∈ ticks, t.stopSignaled = false ∧ t.cancelled = false) :
    (cycleLoop hasSensor s ticks).2 = ticks.length
    ∧ (cycleLoop hasSensor s ticks).1.activeTrial.map TrialState.trialID =
        s.activeTrial.map TrialState.trialID := by
  induction ticks generalizing s with
  | nil => simp [cycleLoop]
  | cons t rest ih =>
    have ht := hrun t (by simp)
    have hrest : ∀ x ∈ rest, x.stopSignaled = false ∧ x.cancelled = false := by
      intro x hx; exact hrun x (by simp [hx])
    have hstep := ih (s := (handleExecuteCycle s hasSensor t.env).1) hrest
    refine ⟨?_, ?_⟩
    · simp [cycleLoop, ht.1, ht.2, hstep.1]
    · simp only [cycleLoop, ht.1, ht.2, Bool.or_self, Bool.false_eq_true, if_false]
      rw [hstep.2, execCycle_preserves_trial]

/-- C7 witness: a two-iteration schedule whose cycles both fail at the pour
step still runs both iterations and leaves the running fixture's trial in
place under its original id. -/
theorem errors_never_stop_trial_witness :
    (cycleLoop true ctrlRunning
        [{ stopSignaled := false, cancelled := false, env := envPourFail },
         { stopSignaled := false, cancelled := false, env := envPourFail }]).2 = 2
    ∧ (cycleLoop true ctrlRunning
        [{ stopSignaled := false, cancelled := false, env := envPourFail },
         { stopSignaled := false, cancelled := false, env := envPourFail }]).1.activeTrial.map
        TrialState.trialID = some "trial-100" := by
  have h := errors_never_stop_trial true ctrlRunning
    [{ stopSignaled := false, cancelled := false, env := envPourFail },
     { stopSignaled := false, cancelled := false, env := envPourFail }]
    (by intro t ht; fin_cases ht <;> exact ⟨rfl, rfl⟩)
  refine ⟨h.1, ?_⟩
  rw [h.2]
  decide

/-- takeLast keeps a list that already fits. -/
theorem takeLast_of_le {α : Type} {l : List α} {n : Nat} (h : l.length ≤ n) :
    takeLast n l = l := by
  simp [takeLast, Nat.sub_eq_zero_of_le h]

/-- Length of takeLast. -/
theorem takeLast_length {α : Type} (n : Nat) (l : List α) :
    (takeLast n l).length = min n l.length := by
  simp [takeLast]
  omega

/-- takeLast only depends on the last n elements of its argument. -/
theorem takeLast_append_takeLast {α : Type} (B : Nat) (l xs : List α) :
    takeLast B (takeLast B l ++ xs) = takeLast B (l ++ xs) := by
  by_cases h : l.length ≤ B
  · rw [takeLast_of_le h]
  · unfold takeLast
    have h1 : l.drop (l.length - B) ++ xs = (l ++ xs).drop (l.length - B) := by
      rw [List.drop_append_eq_append_drop]
      have h2 : l.length - B - l.length = 0 := by omega
      rw [h2]
      simp
    rw [h1, List.drop_drop]
    congr 1
    simp only [List.length_drop, List.length_append]
    omega

/-- The buffer update of one active tick — evict the oldest sample when full,
then append — is exactly the last bufferSize elements of buffer-plus-sample. -/
theorem push_eq_takeLast (B : Nat) (hB : 1 ≤ B) (s : List Rat) (hs : s.length ≤ B) (v : Rat) :
    (if s.length ≥ B then s.tail else s) ++ [v] = takeLast B (s ++ [v]) := by
  by_cases h : B ≤ s.length
  · have hlen : s.length = B := le_antisymm hs h
    have hTL : takeLast B (s ++ [v]) = (s ++ [v]).drop 1 := by
      simp only [takeLast, List.length_append, List.length_cons, List.length_nil, hlen]
      congr 1
      omega
    rw [hTL, List.drop_append_eq_append_drop]
    have h1 : 1 - s.length = 0 := by omega
    rw [h1, List.drop_one]
    simp [h, hlen]
  · have hlt : s.length < B := Nat.lt_of_not_le h
    rw [takeLast_of_le (by simp; omega)]
    simp [Nat.not_le.mpr hlt]

/-- Feeding successful reads to an active sampler keeps it active, never lets
the buffer outgrow the configured capacity, and leaves in the buffer exactly
the last bufferSize of the old buffer followed by the fed samples. -/
theorem feed_active (fs : ForceSensorState) (xs : List Rat)
    (hst : fs.state = CaptureState.active) (hB : 1 ≤ fs.bufferSize)
    (hlen : fs.samples.length ≤ fs.bufferSize) :
    (feedSamples fs xs).state = CaptureState.active
    ∧ (feedSamples fs xs).bufferSize = fs.bufferSize
    ∧ (feedSamples fs xs).samples = takeLast fs.bufferSize (fs.samples ++ xs)
    ∧ (feedSamples fs xs).samples.length ≤ fs.bufferSize := by
  induction xs generalizing fs with
  | nil =>
    simp [feedSamples, hst, takeLast_of_le hlen, hlen]
  | cons v xs ih =>
    have htick : samplingTick fs (some v) =
        { fs with samples :=
            (if fs.samples.length ≥ fs.bufferSize then fs.samples.tail else fs.samples)
              ++ [v] } := by
      simp [samplingTick, hst]
    have hpush := push_eq_takeLast fs.bufferSize hB fs.samples hlen v
    have hlen2 :
        ((if fs.samples.length ≥ fs.bufferSize then fs.samples.tail else fs.samples)
            ++ [v]).length ≤ fs.bufferSize := by
      rw [hpush, takeLast_length]
      omega
    have hfeed : feedSamples fs (v :: xs) = feedSamples (samplingTick fs (some v)) xs := rfl
    rw [hfeed, htick]
    have hrec := ih
      { fs with samples :=
        (if fs.samples.length ≥ fs.bufferSize then fs.samples.tail else fs.samples) ++ [v] }
      (by simpa using hst) hB (by simpa using hlen2)
    refine ⟨hrec.1, hrec.2.1, ?_, hrec.2.2.2⟩
    rw [hrec.2.2.1]
    simp only
    rw [hpush, takeLast_append_takeLast]
    rw [List.append_assoc]
    rfl

/-- C3: feeding N > capacity samples to an active sampler (its buffer starts
empty at the waiting-to-active transition) leaves exactly the most recent
bufferSize samples in arrival order, and after every prefix of the feed the
buffer length is at most the configured capacity. -/
theorem rolling_buffer_window (fs : ForceSensorState) (xs : List Rat)
    (hst : fs.state = CaptureState.active) (hempty : fs.samples = [])
    (hB : 1 ≤ fs.bufferSize) (hN : fs.bufferSize < xs.length) :
    (feedSamples fs xs).samples = xs.drop (xs.length - fs.bufferSize)
    ∧ (feedSamples fs xs).samples.length = fs.bufferSize
    ∧ ∀ n : Nat, (feedSamples fs (xs.take n)).samples.length ≤ fs.bufferSize := by
  have h := feed_active fs xs hst hB (by simp [hempty])
  refine ⟨?_, ?_, ?_⟩
  · rw [h.2.2.1, hempty]
    simp [takeLast]
  · rw [h.2.2.1, hempty]
    simp [takeLast]
    omega
  · intro n
    exact (feed_active fs (xs.take n) hst hB (by simp [hempty])).2.2.2

/-- C3 witness: a two-slot active buffer fed three samples retains the last
two in order, at full capacity. -/
theorem rolling_buffer_window_witness :
    (feedSamples fsActive2 [1, 2, 3]).samples = [2, 3]
    ∧ (feedSamples fsActive2 [1, 2, 3]).samples.length = 2 := by
  have h := rolling_buffer_window fsActive2 [1, 2, 3] (by decide) (by decide)
    (by decide) (by decide)
  constructor
  · rw [h.1]
    decide
  · rw [h.2.1]
    decide

/-- Digit extraction round-trips: with enough fuel, reassembling the digit
list recovers the number. -/
theorem ofDigitsL_natDigitsAux (fuel n : Nat) (h : n ≤ fuel) :
    ofDigitsL (natDigitsAux fuel n) = n := by
  induction fuel generalizing n with
  | zero =>
    have hn : n = 0 := Nat.le_zero.mp h
    simp [natDigitsAux, ofDigitsL, hn]
  | succ f ih =>
    by_cases hn : n = 0
    · simp [natDigitsAux, ofDigitsL, hn]
    · have hdiv : n / 10 ≤ f := by omega
      simp [natDigitsAux, hn, ofDigitsL, ih (n / 10) hdiv]
      omega

/-- Every extracted digit is below the base. -/
theorem natDigitsAux_lt_ten (fuel n : Nat) : ∀ d ∈ natDigitsAux fuel n, d < 10 := by
  induction fuel generalizing n with
  | zero => simp [natDigitsAux]
  | succ f ih =>
    by_cases hn : n = 0
    · simp [natDigitsAux, hn]
    · simp only [natDigitsAux, hn, if_false, List.mem_cons]
      rintro d (rfl | hd)
      · omega
      · exact ih (n / 10) d hd

/-- digitChar tells decimal digits apart. -/
theorem digitChar_inj (a b : Nat) (ha : a < 10) (hb : b < 10)
    (h : digitChar a = digitChar b) : a = b := by
  interval_cases a <;> interval_cases b <;> revert h <;> decide

/-- Mapping digitChar over digit lists is injective. -/
theorem map_digitChar_inj (l1 l2 : List Nat) (h1 : ∀ d ∈ l1, d < 10)
    (h2 : ∀ d ∈ l2, d < 10) (h : l1.map digitChar = l2.map digitChar) : l1 = l2 := by
  induction l1 generalizing l2 with
  | nil => cases l2 <;> simp_all
  | cons a t ih =>
    cases l2 with
    | nil => simp_all
    | cons b u =>
      simp only [List.map_cons, List.cons.injEq] at h
      have ha : a < 10 := h1 a (by simp)
      have hb : b < 10 := h2 b (by simp)
      have hab := digitChar_inj a b ha hb h.1
      have htu := ih u (fun d hd => h1 d (List.mem_cons_of_mem _ hd))
        (fun d hd => h2 d (List.mem_cons_of_mem _ hd)) h.2
      rw [hab, htu]

/-- Decimal rendering is injective. -/
theorem natToString_inj (a b : Nat) (h : natToString a = natToString b) : a = b := by
  unfold natToString at h
  by_cases ha : a = 0 <;> by_cases hb : b = 0
  · omega
  · rw [if_pos ha, if_neg hb] at h
    have hd : String.mk ['0'] = String.mk (((natDigitsAux b b).map digitChar).reverse) := h
    have hlist : ['0'] = ((natDigitsAux b b).map digitChar).reverse := by injection hd
    have hmap : (natDigitsAux b b).map digitChar = ['0'] := by
      have := congrArg List.reverse hlist
      simpa using this.symm
    have hdig : natDigitsAux b b = [0] := by
      refine map_digitChar_inj _ [0] (natDigitsAux_lt_ten b b) (by simp) ?_
      rw [hmap]
      rfl
    have := ofDigitsL_natDigitsAux b b (Nat.le_refl b)
    rw [hdig] at this
    simp [ofDigitsL] at this
    omega
  · rw [if_neg ha, if_pos hb] at h
    have hd : String.mk (((natDigitsAux a a).map digitChar).reverse) = String.mk ['0'] := h
    have hlist : ((natDigitsAux a a).map digitChar).reverse = ['0'] := by injection hd
    have hmap : (natDigitsAux a a).map digitChar = ['0'] := by
      have := congrArg List.reverse hlist
      simpa using this
    have hdig : natDigitsAux a a = [0] := by
      refine map_digitChar_inj _ [0] (natDigitsAux_lt_ten a a) (by simp) ?_
      rw [hmap]
      rfl
    have := ofDigitsL_natDigitsAux a a (Nat.le_refl a)
    rw [hdig] at this
    simp [ofDigitsL] at this
    omega
  · rw [if_neg ha, if_neg hb] at h
    have hlist :
        ((natDigitsAux a a).map digitChar).reverse =
          ((natDigitsAux b b).map digitChar).reverse := by injection h
    have hmap := List.reverse_injective hlist
    have hdig := map_digitChar_inj _ _ (natDigitsAux_lt_ten a a) (natDigitsAux_lt_ten b b) hmap
    have hra := ofDigitsL_natDigitsAux a a (Nat.le_refl a)
    have hrb := ofDigitsL_natDigitsAux b b (Nat.le_refl b)
    rw [hdig] at hra
    omega

/-- Appending to a fixed front string is injective. -/
theorem string_append_left_cancel (p a b : String) (h : p ++ a = p ++ b) : a = b := by
  have hd : (p ++ a).data = (p ++ b).data := congrArg String.data h
  rw [String.data_append, String.data_append] at hd
  have hab := List.append_cancel_left hd
  cases a
  cases b
  exact congrArg String.mk hab

/-- C5 counterexample: two successful start commands in one process lifetime
need not get distinct trial identifiers — started in the same wall-clock
second (distinct instants 100s+0ns and 100s+999999ns, separated by a stop),
both starts succeed and both return the identifier trial-100, because the
identifier is derived from the start time formatted at one-second
resolution. -/
theorem same_second_starts_collide :
    t100a ≠ t100b
    ∧ (handleStart initialController t100a).2 = Except.ok "trial-100"
    ∧ (handleStart (handleStop (handleStart initialController t100a).1).1 t100b).2 =
        Except.ok "trial-100" := by
  refine ⟨by decide, by decide, by decide⟩

/-- C5 (amended): trial identifiers are derived from the start time at
one-second resolution, so any two successful start commands whose processing
times fall in distinct wall-clock seconds receive distinct identifiers;
uniqueness is not guaranteed for starts within the same second. -/
theorem start_ids_distinct_across_seconds (s1 s2 : ControllerState) (t1 t2 : Timestamp)
    (id1 id2 : String) (hsec : t1.sec ≠ t2.sec)
    (h1 : (handleStart s1 t1).2 = Except.ok id1)
    (h2 : (handleStart s2 t2).2 = Except.ok id2) :
    id1 ≠ id2 := by
  have hid1 : "trial-" ++ formatSeconds t1 = id1 := by
    cases ha : s1.activeTrial with
    | some t => simp [handleStart, ha] at h1
    | none => simp [handleStart, ha] at h1; exact h1
  have hid2 : "trial-" ++ formatSeconds t2 = id2 := by
    cases ha : s2.activeTrial with
    | some t => simp [handleStart, ha] at h2
    | none => simp [handleStart, ha] at h2; exact h2
  intro heq
  apply hsec
  apply natToString_inj
  have hf : "trial-" ++ formatSeconds t1 = "trial-" ++ formatSeconds t2 := by
    rw [hid1, hid2, heq]
  exact string_append_left_cancel "trial-" _ _ hf

/-- C5 amended witness: starts one whole second apart (seconds 100 and 101)
yield the distinct identifiers trial-100 and trial-101. -/
theorem start_ids_distinct_across_seconds_witness :
    "trial-100" ≠ ("trial-101" : String) :=
  start_ids_distinct_across_seconds initialController initialController
    t100a { sec := 101, nsec := 0 } "trial-100" "trial-101"
    (by decide) (by decide) (by decide)

end KettleCycleTest
